import Mathlib

/-!
Verification development for the chatbot response-generation engine of
`chatbot_server.py` (class `AutonomousChatBot` and the `/chat` endpoint glue).

Modelling conventions:
* Python strings are Lean `String`s; all inputs of interest are ASCII, so
  `Char.toLower` models `str.lower()` and `Char.isAlphanum || '_'` models `\w`.
* Timestamps are abstract `Nat` values; `datetime.now()` becomes an explicit
  parameter, and `isoformat`/`fromisoformat` round-trip is the identity.
* The regex table of the source uses only a handful of pattern shapes, which
  are embedded as the `Pat` datatype with an executable leftmost-search
  semantics (`reSearch`) mirroring `re.search`.
* `random.choice(lst)` becomes selection `lst[(pick % len(lst))]` for an
  oracle `pick : Nat`; `random.random() < 0.3` becomes an oracle `coin : Bool`.
* `list(set(xs))` has an unspecified (hash-dependent) element order in
  CPython; it is modelled as an oracle function `enum : List String → List
  String` constrained by `SetEnumOK` (no duplicates, same members).
* The database session is external; a history append (`_save_message`) either
  returns normally (also when the conversation row is missing, which is only
  logged) or raises, modelled by `SaveOutcome` / `saveMessage`.
-/

namespace Chatbot

/-! ## Character and string helpers (Python built-ins) -/

/-- `\w` of Python `re` restricted to ASCII: letters, digits, underscore. -/
def isWordChar (c : Char) : Bool := c.isAlphanum || c == '_'

/-- `str.lower()` (ASCII). -/
def pyLower (s : String) : String := String.mk (s.data.map Char.toLower)

/-- `str.strip()`: remove leading and trailing whitespace. -/
def pyStrip (s : String) : String :=
  String.mk (((s.data.dropWhile Char.isWhitespace).reverse.dropWhile
    Char.isWhitespace).reverse)

/-- Helper for `pyTitle`: the Bool records whether the previous char was a
letter (Python: a cased character). -/
def pyTitleAux : List Char → Bool → List Char
  | [], _ => []
  | c :: cs, prevAlpha =>
    (if prevAlpha then c.toLower else c.toUpper) :: pyTitleAux cs c.isAlpha

/-- `str.title()` (ASCII): uppercase each letter that does not follow a
letter, lowercase the rest. -/
def pyTitle (s : String) : String := String.mk (pyTitleAux s.data false)

/-- Substring test over char lists (`tok in s` for Python strings). -/
def containsCs (tok : List Char) : List Char → Bool
  | [] => tok.isEmpty
  | c :: cs => tok.isPrefixOf (c :: cs) || containsCs tok cs

/-- Python `tok in s`. -/
def containsStr (s tok : String) : Bool := containsCs tok.data s.data

/-- Replace every (non-overlapping, left-to-right) occurrence of `pat` by
`rep`, over char lists, with explicit fuel (one unit per consumed character,
so `l.length` units always suffice). -/
def replaceCsAux (pat rep : List Char) : Nat → List Char → List Char
  | 0, l => l
  | _ + 1, [] => []
  | fuel + 1, c :: cs =>
    if !pat.isEmpty && pat.isPrefixOf (c :: cs) then
      rep ++ replaceCsAux pat rep fuel ((c :: cs).drop pat.length)
    else
      c :: replaceCsAux pat rep fuel cs

def replaceCs (pat rep : List Char) (l : List Char) : List Char :=
  replaceCsAux pat rep l.length l

/-- Python `s.replace(pat, rep)` / `str.format` on a single placeholder. -/
def pyReplace (s pat rep : String) : String :=
  String.mk (replaceCs pat.data rep.data s.data)

/-- Python `", ".join l`. -/
def joinComma : List String → String
  | [] => ""
  | [s] => s
  | s :: rest => s ++ ", " ++ joinComma rest

/-! ## The regex-subset engine

The source's pattern table uses only these shapes, embedded as `Pat`:
* `alt pre alts grouped` is `\b pre (a1|a2|…) \b` (when `grouped`) or the same
  with no capture group; single-alternative ungrouped literals like
  `\bhow are you\b` are `alt "" ["how are you"] false`.
* `litCap pre` is `pre(\w+)` with no word boundaries (the name patterns).
* `lazyCap pre` is `\b pre (.+?)\b` (the hobby patterns).
* `altLazy alts` is `\b(a1|a2) (.+?)\b` (the second feedback pattern);
  its first group captures the matched alternative.
-/

inductive Pat where
  | alt (pre : String) (alts : List String) (grouped : Bool)
  | litCap (pre : String)
  | lazyCap (pre : String)
  | altLazy (alts : List String)
deriving DecidableEq, Repr

/-- Is the char at index `i` a word char (out of range counts as not). -/
def wordAtPos (s : List Char) (i : Nat) : Bool :=
  match s.drop i with
  | [] => false
  | c :: _ => isWordChar c

/-- `\b` of Python `re` at position `i` of `s`: exactly one of the adjacent
characters is a word character. -/
def boundaryAt (s : List Char) (i : Nat) : Bool :=
  (if i = 0 then false else wordAtPos s (i - 1)) != wordAtPos s i

/-- Does `p` occur literally at index `i` of `s`? -/
def litAt (p s : List Char) (i : Nat) : Bool := p.isPrefixOf (s.drop i)

/-- Semantics of `(.+?)\b` starting at index `j`: the shortest non-empty,
newline-free run after which a word boundary holds. -/
def lazyFrom (s : List Char) (j : Nat) : Option String :=
  (List.range (s.length - j)).findSome? fun k =>
    let n := k + 1
    if ((s.drop j).take n).all (fun c => c != '\n') && boundaryAt s (j + n)
    then some (String.mk ((s.drop j).take n)) else none

/-- Try to match pattern `p` anchored at index `i` of `s`; on success return
the value of `match.groups()[0]` (`none` inside `some` when the pattern has no
group). Alternatives are tried left to right, as Python does. -/
def matchAt (s : List Char) (i : Nat) : Pat → Option (Option String)
  | .alt pre alts grouped =>
    if boundaryAt s i then
      match alts.find? (fun a =>
          litAt (pre.data ++ a.data) s i &&
          boundaryAt s (i + pre.length + a.length)) with
      | some a => some (if grouped then some a else none)
      | none => none
    else none
  | .litCap pre =>
    if litAt pre.data s i then
      match (s.drop (i + pre.length)).takeWhile isWordChar with
      | [] => none
      | run => some (some (String.mk run))
    else none
  | .lazyCap pre =>
    if boundaryAt s i && litAt pre.data s i then
      (lazyFrom s (i + pre.length)).map some
    else none
  | .altLazy alts =>
    if boundaryAt s i then
      (alts.findSome? fun a =>
        if litAt (a.data ++ [' ']) s i then
          (lazyFrom s (i + a.length + 1)).map (fun _ => a)
        else none).map some
    else none

/-- `re.search(p, s)`: leftmost match wins. `some g` means a match occurred,
with `g` the first capture group (or `none` if the pattern has no group). -/
def reSearch (p : Pat) (s : String) : Option (Option String) :=
  (List.range (s.data.length + 1)).findSome? fun i => matchAt s.data i p

/-! ## The response-pattern table (`self.response_patterns`)

One `Category` per key of the dict, in the dict's (insertion) order. The two
f-strings of the `time` category evaluate `datetime.datetime.now()` when
`__init__` builds the dict, so the table is parameterised by the
construction-time clock `t0` (see `timeCat`). -/

structure Category where
  name : String
  patterns : List Pat
  responses : List String
deriving DecidableEq, Repr

def greetingCat : Category :=
  { name := "greeting"
    patterns := [
      .alt "" ["hello", "hi", "hey", "good morning", "good afternoon",
               "good evening", "greetings", "howdy"] true,
      .alt "" ["what's up", "whats up", "sup"] true,
      .alt "" ["nice to meet you"] true]
    responses := [
      "Hello! I'm excited to chat with you today. What's on your mind?",
      "Hi there! How are you doing today?",
      "Hey! Great to see you. What would you like to talk about?",
      "Hello! I'm here and ready to help. What brings you here today?",
      "Greetings! I'm your autonomous assistant. How can I make your day better?",
      "It's a pleasure to connect with you!",
      "Hi! So glad you stopped by. What's up?"] }

def nameInquiryCat : Category :=
  { name := "name_inquiry"
    patterns := [
      .litCap "my name is ",
      .litCap "i'm ",
      .litCap "call me ",
      .litCap "i am ",
      .litCap "you can call me "]
    responses := [
      "Nice to meet you, {name}! I'll remember that. How can I help you today?",
      "Great to know you, {name}! Thanks for introducing yourself.",
      "Hello {name}! It's wonderful to put a name to our conversation.",
      "Perfect, {name}! I'm glad we're getting acquainted. What's on your mind?",
      "Ah, {name}! A pleasure to make your acquaintance. What shall we discuss?"] }

def howAreYouCat : Category :=
  { name := "how_are_you"
    patterns := [
      .alt "" ["how are you"] false,
      .alt "" ["how do you feel"] false,
      .alt "" ["how's it going"] false,
      .alt "" ["how have you been"] false,
      .alt "" ["you doing good"] false]
    responses := [
      "I'm doing great, thanks for asking! I'm always excited to learn and chat. How are you feeling today?",
      "I'm functioning well and ready to help! What's going well in your life?",
      "I'm doing wonderfully! Every conversation teaches me something new. How about you?",
      "I'm in excellent spirits! Ready to dive into whatever interests you.",
      "As an AI, I don't 'feel' in the human sense, but I'm operating perfectly! And you?",
      "I'm here, ready to assist! How are things with you today?"] }

def feelingsPositiveCat : Category :=
  { name := "feelings_positive"
    patterns := [
      .alt "i feel " ["happy", "excited", "great", "amazing", "wonderful",
        "fantastic", "good", "joy", "cheerful", "optimistic", "awesome",
        "terrific", "blessed"] true,
      .alt "i'm " ["happy", "excited", "great", "amazing", "wonderful",
        "fantastic", "good", "joyful", "cheerful", "optimistic", "awesome",
        "terrific", "blessed"] true,
      .alt "things are " ["great", "good", "going well"] true,
      .alt "" ["i'm doing great", "i'm doing good"] true]
    responses := [
      "That's wonderful to hear! I love that you're feeling {emotion}. What's been making you feel this way?",
      "How fantastic that you're feeling {emotion}! Would you like to share what's going so well?",
      "I'm so glad you're in such a {emotion} mood! What's been the highlight of your day?",
      "That's absolutely lovely! What's contributing to this positive energy?",
      "It's great to hear you're feeling {emotion}! Tell me more about it."] }

def feelingsNegativeCat : Category :=
  { name := "feelings_negative"
    patterns := [
      .alt "i feel " ["sad", "angry", "worried", "anxious", "terrible",
        "awful", "down", "depressed", "stressed", "bad", "frustrated",
        "tired", "lonely", "upset"] true,
      .alt "i'm " ["sad", "angry", "worried", "anxious", "terrible",
        "awful", "down", "depressed", "stressed", "bad", "frustrated",
        "tired", "lonely", "upset"] true,
      .alt "things are " ["bad", "not going well"] true,
      .alt "" ["i'm not doing well", "i'm doing bad"] true]
    responses := [
      "I hear that you're feeling {emotion}. That sounds difficult. Would you like to talk about what's causing that?",
      "Thanks for sharing that you feel {emotion}. I'm here to listen. What's been weighing on you?",
      "It takes courage to express feeling {emotion}. What's been going on that's making you feel this way?",
      "I'm sorry you're going through {emotion} feelings. Sometimes talking helps - what's on your mind?",
      "I'm sorry to hear that. Please tell me more, I'm here to support you.",
      "It sounds like you're having a tough time. Is there anything I can do to help, even just by listening?"] }

def questionsGeneralCat : Category :=
  { name := "questions_general"
    patterns := [
      .alt "" ["what is"] false,
      .alt "" ["how do"] false,
      .alt "" ["why do"] false,
      .alt "" ["can you"] false,
      .alt "" ["would you"] false,
      .alt "" ["do you know"] false,
      .alt "" ["what are"] false,
      .alt "" ["how can i"] false,
      .alt "" ["tell me about"] false]
    responses := [
      "That's a great question! Let me think about that. What's your take on it?",
      "Interesting question! I'd love to explore that with you. What made you curious about this?",
      "That's something worth discussing! What do you already know about this topic?",
      "Good question! I enjoy intellectual discussions. What's your perspective?",
      "I can certainly try to help with that. What specifically are you trying to understand?",
      "That's a common query! What kind of answer are you hoping for?"] }

def complimentsCat : Category :=
  { name := "compliments"
    patterns := [
      .alt "you're " ["great", "good", "helpful", "smart", "nice", "awesome",
        "amazing", "wonderful", "clever", "intelligent"] true,
      .alt "" ["thank you"] false,
      .alt "" ["thanks"] false,
      .alt "i appreciate " ["that", "it", "your help"] true,
      .alt "you help " ["me", "a lot"] true,
      .alt "" ["you're the best"] false,
      .alt "" ["that was helpful"] false]
    responses := [
      "Thank you so much! That really means a lot to me. I enjoy our conversation too!",
      "I appreciate that! I'm glad I could be helpful. Is there anything else you'd like to chat about?",
      "You're very kind! I'm here whenever you need someone to talk to.",
      "That's so thoughtful of you to say! It makes me happy to be useful.",
      "It's my pleasure! I'm glad I could assist.",
      "You're welcome! I'm always happy to help."] }

def goodbyeCat : Category :=
  { name := "goodbye"
    patterns := [
      .alt "" ["bye", "goodbye", "see you", "talk to you later", "gtg",
        "got to go", "farewell", "take care"] true,
      .alt "" ["i have to go"] false,
      .alt "" ["gotta run"] false,
      .alt "" ["speak to you soon"] false,
      .alt "" ["catch you later"] false]
    responses := [
      "Goodbye! It was really nice chatting with you. Come back anytime!",
      "See you later! I enjoyed our conversation. Take care!",
      "Bye! Thanks for the great chat. I'll be here when you want to talk again!",
      "Farewell! It's been a pleasure. Hope to see you again soon!",
      "Until next time! Stay well.",
      "Talk to you soon!"] }

def weatherCat : Category :=
  { name := "weather"
    patterns := [
      .alt "" ["weather"] false,
      .alt "" ["rain"] false,
      .alt "" ["sunny"] false,
      .alt "" ["cloudy"] false,
      .alt "" ["storm"] false]
    responses := [
      "I don't have access to current weather data, but I'd love to hear about the weather where you are! How's it looking outside?",
      "Weather can really affect our mood! What's the weather like in your area today?",
      "I wish I could check the weather for you! Are you planning any outdoor activities?"] }

/-- Models `datetime.datetime.now().strftime(...)` on the abstract clock. -/
def clockStr (t : Nat) : String := toString t

/-- The `time` responses; the first and third are f-strings that interpolate
the clock reading taken when `__init__` builds the table. -/
def timeResponses (t0 : Nat) : List String :=
  ["According to my server, it's currently " ++ clockStr t0 ++
     ". What time zone are you in?",
   "Time flies when we're having good conversations! What are you up to today?",
   "My clock shows " ++ clockStr t0 ++
     " - but time zones can be tricky! How's your day going?"]

def timeCat (t0 : Nat) : Category :=
  { name := "time"
    patterns := [
      .alt "" ["what time"] false,
      .alt "" ["current time"] false,
      .alt "" ["time is it"] false]
    responses := timeResponses t0 }

def identityInquiryCat : Category :=
  { name := "identity_inquiry"
    patterns := [
      .alt "" ["who are you"] false,
      .alt "" ["what are you"] false,
      .alt "" ["your name"] false,
      .alt "" ["what is your name"] false]
    responses := [
      "I am Maximas, your autonomous chatbot assistant. I'm here to chat and help you explore ideas!",
      "You can call me Maximas. I'm an AI designed to have engaging conversations.",
      "I'm Maximas, an AI. It's nice to connect with you!"] }

def capabilitiesInquiryCat : Category :=
  { name := "capabilities_inquiry"
    patterns := [
      .alt "" ["what can you do"] false,
      .alt "" ["can you help me"] false,
      .alt "" ["what is your purpose"] false]
    responses := [
      "I can chat about a wide range of topics, learn from our conversations, remember your context, and provide thoughtful responses. How can I assist you today?",
      "My purpose is to engage in meaningful conversation, learn from our interactions, and be a helpful, autonomous assistant. What do you need help with?",
      "I can discuss various subjects, provide information I've been trained on, and adapt to our ongoing dialogue. Feel free to ask me anything!"] }

def boredomCat : Category :=
  { name := "boredom"
    patterns := [
      .alt "" ["i'm bored"] false,
      .alt "" ["nothing to do"] false,
      .alt "" ["what should i do"] false,
      .alt "" ["entertain me"] false]
    responses := [
      "Oh no, boredom! How about we discuss a new topic? Is there anything you've been curious about lately?",
      "Boredom is a chance for new adventures! What's something you've always wanted to learn or try?",
      "Let's beat that boredom! I can tell you a fun fact, or we could brainstorm some ideas. What sounds good?",
      "If you're bored, maybe we can explore one of your interests? Or I could suggest a topic like [science], [history], or [art]?"] }

def hobbiesInterestsCat : Category :=
  { name := "hobbies_interests"
    patterns := [
      .lazyCap "my hobby is ",
      .lazyCap "i like to ",
      .lazyCap "i enjoy ",
      .lazyCap "i'm interested in ",
      .lazyCap "do you like "]
    responses := [
      "That's fascinating! So, you enjoy {interest}. Can you tell me more about what makes it so engaging for you?",
      "It sounds like you're passionate about {interest}! How did you get into that?",
      "I find {interest} to be a very interesting topic. What's a recent experience you've had with it?",
      "While I don't 'like' things in the human sense, I find learning about {interest} quite valuable! What else do you enjoy?"] }

def feedbackCat : Category :=
  { name := "feedback"
    patterns := [
      .alt "" ["you could improve", "i have a suggestion", "feedback for you"] true,
      .altLazy ["you should", "you need to"]]
    responses := [
      "Thank you for your feedback! I'm always learning and looking to improve. What specifically is on your mind?",
      "I appreciate you taking the time to give me a suggestion. Please tell me more about it.",
      "Constructive criticism is very valuable! What are your thoughts on how I could do better?"] }

/-- `self.response_patterns` in dict order, built at construction time `t0`. -/
def chatTable (t0 : Nat) : List Category :=
  [greetingCat, nameInquiryCat, howAreYouCat, feelingsPositiveCat,
   feelingsNegativeCat, questionsGeneralCat, complimentsCat, goodbyeCat,
   weatherCat, timeCat t0, identityInquiryCat, capabilitiesInquiryCat,
   boredomCat, hobbiesInterestsCat, feedbackCat]

/-- `self.contextual_responses`. -/
def contextualResponses : List String :=
  ["That's really interesting! Can you tell me more about that?",
   "I see what you mean. How does that make you feel?",
   "Thanks for sharing that with me. What else is on your mind?",
   "That sounds important to you. What led you to think about this?",
   "I'm listening. What would you like to explore next?",
   "That's a fascinating perspective! What experiences shaped that view?",
   "I appreciate you opening up about that. How long have you been thinking about this?",
   "That's quite thoughtful of you to consider. What other aspects interest you?",
   "You've got me curious now! What drew you to this topic?",
   "I find that intriguing. What's your personal experience with this?"]

/-- The response list built inside `_generate_deep_response`. -/
def deepResponses (keywords : List String) : List String :=
  ["We've been having such an engaging conversation! I'm particularly interested in what you mentioned about "
     ++ joinComma (keywords.take 2) ++ ". What's your deeper perspective on this?",
   "You've shared some really thoughtful ideas about "
     ++ joinComma (keywords.take 2)
     ++ ". What's been the most surprising thing you've learned about this topic?",
   "I'm really enjoying our discussion! What aspect of this topic do you find most compelling?",
   "Your insights about " ++ keywords.headD "this topic"
     ++ " are fascinating. How did you first become interested in this?",
   "We've covered so much ground in our conversation! What would you say has been the most meaningful part for you?"]

/-- The response list built inside `_generate_medium_response` (the keyword
list is non-empty in the first branch, otherwise the generic list). -/
def mediumResponses (keywords : List String) : List String :=
  if keywords.isEmpty then
    ["I'm really enjoying our conversation! What else would you like to explore?",
     "You have some interesting perspectives. What other topics are you passionate about?",
     "Thanks for sharing your thoughts with me. What else is on your mind today?"]
  else
    ["That's interesting what you mentioned about " ++ keywords.headD ""
       ++ ". Tell me more about your experience with that.",
     "I'm curious about " ++ joinComma (keywords.take 2)
       ++ " - what draws you to these topics?",
     "You seem knowledgeable about " ++ keywords.headD ""
       ++ ". How long have you been interested in this?",
     "I can tell this is something you care about. What got you started thinking about this?"]

/-! ## Keyword extraction (`_extract_keywords`) -/

/-- The `common_words` stop-word set (a Python set literal; only membership
is ever used, so a list is an adequate model). -/
def commonWords : List String :=
  ["the", "a", "an", "and", "or", "but", "in", "on", "at", "to", "for", "of",
   "with", "by", "i", "you", "he", "she", "it", "we", "they", "this", "that",
   "these", "those", "is", "are", "was", "were", "be", "been", "being",
   "have", "has", "had", "do", "does", "did", "will", "would", "could",
   "should", "may", "might", "can", "must", "not", "no", "yes", "ok", "okay",
   "um", "uh", "well", "so", "like", "just", "really"]

/-- Accumulator-based splitting of a char list into its maximal `\w+` runs;
models `re.findall(r"\b\w+\b", s)`. -/
def wordRunsAux : List Char → List Char → List String
  | [], acc => if acc.isEmpty then [] else [String.mk acc.reverse]
  | c :: cs, acc =>
    if isWordChar c then wordRunsAux cs (c :: acc)
    else if acc.isEmpty then wordRunsAux cs []
    else String.mk acc.reverse :: wordRunsAux cs []

def wordRuns (l : List Char) : List String := wordRunsAux l []

/-- `_extract_keywords`: tokenize the lower-cased message, drop stop words
and words of length ≤ 2, keep the first 5 survivors. -/
def extractKeywords (message : String) : List String :=
  ((wordRuns (pyLower message).data).filter
    (fun w => !(decide (w ∈ commonWords)) && decide (2 < w.length))).take 5

/-! ## Conversational state and history -/

/-- One element of `self.conversation_history` / one `ConversationEntry` row.
(The in-memory entries also carry a write-only `message_id` field, which is
never read and therefore omitted.) -/
structure HistoryEntry where
  sender : String
  message : String
  timestamp : Nat
deriving DecidableEq, Repr

/-- `self.user_context`. -/
structure UserContext where
  name : Option String
  interests : List String
  mood : String
  topics_discussed : List String
  conversation_start : Nat
  message_count : Nat
  last_user_message_timestamp : Option Nat
deriving DecidableEq, Repr

/-- The `user_context` dict literal built in `__init__` (before
`_update_context_from_history` runs). -/
def initContext (history : List HistoryEntry) (now : Nat) : UserContext :=
  { name := none
    interests := []
    mood := "neutral"
    topics_discussed := []
    conversation_start := now
    message_count := history.length
    last_user_message_timestamp := none }

/-- First pattern of `pats` that matches `ml` with a (non-empty) group tuple,
returning its first capture: the `if match and match.groups()` scan used by
`_update_context_from_history`. -/
def findCap (pats : List Pat) (ml : String) : Option String :=
  pats.findSome? fun p =>
    match reSearch p ml with
    | some (some c) => some c
    | _ => none

/-- The name scan of one user entry (lines 402-406): the first name pattern
that captures overwrites `name`, title-cased. -/
def scanName (ml : String) (cur : Option String) : Option String :=
  match findCap nameInquiryCat.patterns ml with
  | some n => some (pyTitle n)
  | none => cur

/-- The mood scan of one user entry (lines 407-414): positive patterns first;
the `if mood != 'neutral': break` skips the negative patterns whenever the
mood is already non-neutral. -/
def scanMood (ml : String) (cur : String) : String :=
  match findCap feelingsPositiveCat.patterns ml with
  | some e => e
  | none =>
    if cur != "neutral" then cur
    else
      match findCap feelingsNegativeCat.patterns ml with
      | some e => e
      | none => cur

/-- The per-entry body of the `for entry in self.conversation_history` loop
of `_update_context_from_history`. -/
def historyStep (ctx : UserContext) (e : HistoryEntry) : UserContext :=
  if e.sender == "user" then
    let ml := pyLower e.message
    { ctx with
        name := scanName ml ctx.name
        mood := scanMood ml ctx.mood
        last_user_message_timestamp := some e.timestamp }
  else
    { ctx with last_user_message_timestamp := some e.timestamp }

/-- The body of `_update_context_from_history` (lines 390-417): backdate
`conversation_start`, set `message_count` to the total entry count, then scan
the entries. This is the computation the function performs *when the pattern
table is available*; see `mkBotE` for the fact that in the source the call
happens before `self.response_patterns` is assigned. -/
def updateContextFromHistory (history : List HistoryEntry) (ctx : UserContext) :
    UserContext :=
  match history with
  | [] => ctx
  | first :: rest =>
    (first :: rest).foldl historyStep
      { ctx with
          conversation_start := first.timestamp
          message_count := (first :: rest).length }

/-- An `AutonomousChatBot` instance: the construction-time clock (baked into
the `time` responses), the per-session context, and the in-memory history. -/
structure Bot where
  ctorTime : Nat
  ctx : UserContext
  history : List HistoryEntry
deriving DecidableEq, Repr

/-- The intended result of `__init__(user_id, session_id)` when the database
holds `history`: load history, build the context, replay the scan. -/
def mkBot (history : List HistoryEntry) (now : Nat) : Bot :=
  { ctorTime := now
    ctx := updateContextFromHistory history (initContext history now)
    history := history }

/-- The message raised by the source's `__init__`: line 120 calls
`_update_context_from_history`, whose line 402 reads
`self.response_patterns`, but that attribute is only assigned at line 123. -/
def attrErrMsg : String :=
  "AttributeError: 'AutonomousChatBot' object has no attribute 'response_patterns'"

/-- The *faithful* `__init__`: the name/mood scan (line 402) is reached
exactly when the loaded history contains a `sender == 'user'` entry, and at
that point `self.response_patterns` does not exist yet, so construction
raises `AttributeError` and no instance is produced. Histories without user
entries never reach line 402 and construct normally. -/
def mkBotE (history : List HistoryEntry) (now : Nat) : Except String Bot :=
  if history.any (fun e => e.sender == "user") then .error attrErrMsg
  else .ok (mkBot history now)

/-! ## `list(set(...))[-n:]` and randomness oracles -/

/-- Python `xs[-n:]`. -/
def pyLastN (l : List String) (n : Nat) : List String := l.drop (l.length - n)

/-- `list(set(l))[-n:]` for a set-enumeration oracle `enum`. -/
def setThenLast (enum : List String → List String) (l : List String) (n : Nat) :
    List String :=
  pyLastN (enum l) n

/-- What CPython guarantees about `list(set(l))`: some duplicate-free
enumeration of the members of `l`, in an unspecified (hash-dependent)
order. -/
def SetEnumOK (enum : List String → List String) : Prop :=
  ∀ l, (enum l).Nodup ∧ ∀ a, a ∈ enum l ↔ a ∈ l

/-- `random.choice(l)` for an oracle draw `pick`. -/
def pyChoice (l : List String) (pick : Nat) : String := l.getD (pick % l.length) ""

/-! ## The pattern matcher (`_match_patterns`) -/

/-- The category-specific state update and interpolation of
`_match_patterns` (lines 488-503), applied to the chosen template. -/
def specialCase (cat : Category) (grp : Option String) (ctx : UserContext)
    (enum : List String → List String) (response : String) :
    String × UserContext :=
  if cat.name == "name_inquiry" && grp.isSome then
    let nm := pyTitle (grp.getD "")
    (pyReplace response "{name}" nm, { ctx with name := some nm })
  else if (cat.name == "feelings_positive" || cat.name == "feelings_negative")
      && grp.isSome then
    let em := grp.getD ""
    (pyReplace response "{emotion}" em, { ctx with mood := em })
  else if cat.name == "hobbies_interests" && grp.isSome then
    let it := grp.getD ""
    (pyReplace response "{interest}" it,
     { ctx with interests := setThenLast enum (ctx.interests ++ [it]) 10 })
  else (response, ctx)

/-- The personalisation step (lines 505-507): if a name is known, the chosen
response has no `{name}` placeholder left in it, and the 0.3-probability coin
comes up, prefix the name and lower-case the response. -/
def personalize (coin : Bool) (rc : String × UserContext) : String × UserContext :=
  if rc.2.name.isSome && !(containsStr rc.1 "{name}") && coin then
    ((rc.2.name.getD "") ++ ", " ++ pyLower rc.1, rc.2)
  else rc

/-- Everything `_match_patterns` does once a category has hit: pick a
template, apply the category-specific updates, personalise. -/
def applyCat (cat : Category) (grp : Option String) (ctx : UserContext)
    (pick : Nat) (coin : Bool) (enum : List String → List String) :
    String × UserContext :=
  personalize coin (specialCase cat grp ctx enum (pyChoice cat.responses pick))

/-- The inner `for pattern in data['patterns']` loop: first matching pattern
of the category wins (`re.search` result, group or not). -/
def findPatMatch (pats : List Pat) (ml : String) : Option (Option String) :=
  pats.findSome? fun p => reSearch p ml

/-- `_match_patterns(message_lower, original_message)`: categories in table
order, patterns in list order, first hit wins; `none` models the `return
None` fall-through. -/
def matchPatterns (tbl : List Category) (ml : String) (ctx : UserContext)
    (pick : Nat) (coin : Bool) (enum : List String → List String) :
    Option (String × UserContext) :=
  match tbl with
  | [] => none
  | cat :: rest =>
    match findPatMatch cat.patterns ml with
    | some grp => some (applyCat cat grp ctx pick coin enum)
    | none => matchPatterns rest ml ctx pick coin enum

/-! ## The contextual responder and topic update -/

/-- `_generate_contextual_response(message)`: merge unseen keywords into the
interests (then `list(set(...))[-10:]`), and branch on the already
incremented `message_count`. -/
def generateContextualResponse (message : String) (ctx : UserContext)
    (pick : Nat) (enum : List String → List String) : String × UserContext :=
  let keywords := extractKeywords message
  let ctx2 :=
    { ctx with
        interests := setThenLast enum
          (keywords.foldl (fun acc k => if k ∈ acc then acc else acc ++ [k])
            ctx.interests) 10 }
  if ctx2.message_count > 6 then (pyChoice (deepResponses keywords) pick, ctx2)
  else if ctx2.message_count > 3 then
    (pyChoice (mediumResponses keywords) pick, ctx2)
  else (pyChoice contextualResponses pick, ctx2)

/-- `_update_topics(message)`. -/
def updateTopics (enum : List String → List String) (message : String)
    (ctx : UserContext) : UserContext :=
  { ctx with
      topics_discussed :=
        setThenLast enum (ctx.topics_discussed ++ extractKeywords message) 20 }

/-! ## `process_message` and the endpoint -/

/-- The matcher-then-contextual-fallback step of `process_message`
(lines 458-463), on the lower-cased, stripped input. -/
def computeResponse (t0 : Nat) (message : String) (ctx : UserContext)
    (pick : Nat) (coin : Bool) (cp : Nat) (enum : List String → List String) :
    String × UserContext :=
  match matchPatterns (chatTable t0) (pyStrip (pyLower message)) ctx pick coin enum with
  | some rc => rc
  | none => generateContextualResponse message ctx cp enum

/-- `process_message(message)` with the two external saves elided (they do
not touch the in-memory state): increment the count, append the user entry,
compute the response, append the bot entry, fold keywords into the topics,
return the updated instance and the response. `now1`/`now2` are the
`datetime.now()` readings for the two history entries. -/
def processMessage (bot : Bot) (message : String) (now1 now2 pick : Nat)
    (coin : Bool) (cp : Nat) (enum : List String → List String) :
    Bot × String :=
  let ctx1 := { bot.ctx with message_count := bot.ctx.message_count + 1 }
  let rc := computeResponse bot.ctorTime message ctx1 pick coin cp enum
  ({ bot with
      ctx := updateTopics enum message rc.2
      history := (bot.history ++ [⟨"user", message, now1⟩])
                   ++ [⟨"bot", rc.1, now2⟩] },
   rc.1)

/-- How one `_save_message` call can go: normal commit, conversation row
missing (only logged, the function returns normally), or the database commit
raising. -/
inductive SaveOutcome where
  | ok
  | missingConversation
  | commitError
deriving DecidableEq, Repr

/-- `_save_message`: the missing-row case is caught by the early `return`
after logging; only a raising commit propagates. -/
def saveMessage : SaveOutcome → Except String Unit
  | .commitError => .error "db commit failed"
  | _ => .ok ()

/-- `process_message` with the two `_save_message` calls made explicit: a
raising save aborts the turn at the corresponding point (the in-memory
mutations made so far survive on the instance, carried in the error). -/
def processMessageE (bot : Bot) (message : String) (now1 now2 pick : Nat)
    (coin : Bool) (cp : Nat) (enum : List String → List String)
    (su sb : SaveOutcome) : Except (String × Bot) (Bot × String) :=
  let ctx1 := { bot.ctx with message_count := bot.ctx.message_count + 1 }
  let hist1 := bot.history ++ [⟨"user", message, now1⟩]
  match saveMessage su with
  | .error e => .error (e, { bot with ctx := ctx1, history := hist1 })
  | .ok _ =>
    let rc := computeResponse bot.ctorTime message ctx1 pick coin cp enum
    let hist2 := hist1 ++ [⟨"bot", rc.1, now2⟩]
    match saveMessage sb with
    | .error e => .error (e, { bot with ctx := rc.2, history := hist2 })
    | .ok _ =>
      .ok ({ bot with ctx := updateTopics enum message rc.2, history := hist2 },
           rc.1)

/-- What the `/chat` endpoint hands back for one turn. -/
inductive ChatResult where
  | success (response : String)
  | internalError
deriving DecidableEq, Repr

/-- The `try/except` of `chat_endpoint` around `process_message`: any
exception becomes a generic 500, discarding the computed response. -/
def chatEndpointCore (bot : Bot) (message : String) (now1 now2 pick : Nat)
    (coin : Bool) (cp : Nat) (enum : List String → List String)
    (su sb : SaveOutcome) : ChatResult :=
  match processMessageE bot message now1 now2 pick coin cp enum su sb with
  | .ok rb => .success rb.2
  | .error _ => .internalError

/-- Number of `sender == 'user'` entries of a history. -/
def userEntryCount (h : List HistoryEntry) : Nat :=
  (h.filter (fun e => e.sender == "user")).length

/-! ## Concrete oracles used by witnesses and counterexamples -/

/-- The identity set-enumeration (used where the enumeration is irrelevant). -/
def idEnum : List String → List String := fun l => l

/-- Deduplication keeping first occurrences (accumulator of seen values). -/
def dedupAux : List String → List String → List String
  | [], _ => []
  | a :: l, seen =>
    if a ∈ seen then dedupAux l seen else a :: dedupAux l (a :: seen)

def dedupKeepFirst (l : List String) : List String := dedupAux l []

/-- A legal `list(set(...))` enumeration that reverses first-occurrence
order — CPython's hash-randomised order makes no promise at all about
insertion order. -/
def revEnum (l : List String) : List String := (dedupKeepFirst l).reverse

/-- A context whose per-turn counter has already been driven to 7. -/
def ctx7 : UserContext := { initContext [] 0 with message_count := 7 }

/-- A context that has already discussed two topics, in this order. -/
def topicsCtx : UserContext :=
  { initContext [] 0 with topics_discussed := ["aaa", "bbb"] }

/-! ## Helper lemmas -/

theorem personalize_snd (coin : Bool) (rc : String × UserContext) :
    (personalize coin rc).2 = rc.2 := by
  unfold personalize; split <;> rfl

theorem specialCase_message_count (cat : Category) (grp : Option String)
    (ctx : UserContext) (enum : List String → List String) (r : String) :
    (specialCase cat grp ctx enum r).2.message_count = ctx.message_count := by
  unfold specialCase; split_ifs <;> rfl

theorem specialCase_name (cat : Category) (grp : Option String)
    (ctx : UserContext) (enum : List String → List String) (r : String) :
    (specialCase cat grp ctx enum r).2.name = ctx.name ∨
      ∃ s, (specialCase cat grp ctx enum r).2.name = some s := by
  unfold specialCase
  split_ifs
  · exact Or.inr ⟨_, rfl⟩
  all_goals exact Or.inl rfl

theorem specialCase_interests (cat : Category) (grp : Option String)
    (ctx : UserContext) (enum : List String → List String) (r : String) :
    (specialCase cat grp ctx enum r).2.interests = ctx.interests ∨
      ∃ g, (specialCase cat grp ctx enum r).2.interests =
        setThenLast enum (ctx.interests ++ [g]) 10 := by
  unfold specialCase
  split_ifs
  · exact Or.inl rfl
  · exact Or.inl rfl
  · exact Or.inr ⟨_, rfl⟩
  · exact Or.inl rfl

theorem applyCat_message_count (cat : Category) (grp : Option String)
    (ctx : UserContext) (pick : Nat) (coin : Bool)
    (enum : List String → List String) :
    (applyCat cat grp ctx pick coin enum).2.message_count = ctx.message_count := by
  unfold applyCat
  rw [personalize_snd, specialCase_message_count]

theorem matchPatterns_some_ex (tbl : List Category) (ml : String)
    (ctx : UserContext) (pick : Nat) (coin : Bool)
    (enum : List String → List String) (rc : String × UserContext)
    (h : matchPatterns tbl ml ctx pick coin enum = some rc) :
    ∃ cat grp, cat ∈ tbl ∧ rc = applyCat cat grp ctx pick coin enum := by
  induction tbl with
  | nil => simp [matchPatterns] at h
  | cons cat rest ih =>
    rw [matchPatterns] at h
    cases hf : findPatMatch cat.patterns ml with
    | some grp =>
      rw [hf] at h
      exact ⟨cat, grp, List.mem_cons_self _ _, (Option.some_injective _ h).symm⟩
    | none =>
      rw [hf] at h
      obtain ⟨c, g, hc, hrc⟩ := ih h
      exact ⟨c, g, List.mem_cons_of_mem _ hc, hrc⟩

theorem matchPatterns_append_none (pre rest : List Category) (ml : String)
    (ctx : UserContext) (pick : Nat) (coin : Bool)
    (enum : List String → List String)
    (h : ∀ c ∈ pre, findPatMatch c.patterns ml = none) :
    matchPatterns (pre ++ rest) ml ctx pick coin enum =
      matchPatterns rest ml ctx pick coin enum := by
  induction pre with
  | nil => rfl
  | cons c pre ih =>
    rw [List.cons_append, matchPatterns, h c (List.mem_cons_self _ _)]
    exact ih fun c hc => h c (List.mem_cons_of_mem _ hc)

theorem matchPatterns_cons_hit (cat : Category) (rest : List Category)
    (ml : String) (ctx : UserContext) (pick : Nat) (coin : Bool)
    (enum : List String → List String) (g : Option String)
    (h : findPatMatch cat.patterns ml = some g) :
    matchPatterns (cat :: rest) ml ctx pick coin enum =
      some (applyCat cat g ctx pick coin enum) := by
  rw [matchPatterns, h]

theorem setThenLast_length (enum : List String → List String) (l : List String)
    (n : Nat) : (setThenLast enum l n).length ≤ n := by
  unfold setThenLast pyLastN
  rw [List.length_drop]
  omega

theorem setThenLast_nodup (enum : List String → List String)
    (henum : SetEnumOK enum) (l : List String) (n : Nat) :
    (setThenLast enum l n).Nodup :=
  ((henum l).1).sublist (List.drop_sublist _ _)

theorem generateContextualResponse_message_count (message : String)
    (ctx : UserContext) (pick : Nat) (enum : List String → List String) :
    (generateContextualResponse message ctx pick enum).2.message_count =
      ctx.message_count := by
  unfold generateContextualResponse
  dsimp only
  split_ifs <;> rfl

theorem generateContextualResponse_name (message : String)
    (ctx : UserContext) (pick : Nat) (enum : List String → List String) :
    (generateContextualResponse message ctx pick enum).2.name = ctx.name := by
  unfold generateContextualResponse
  dsimp only
  split_ifs <;> rfl

theorem generateContextualResponse_interests (message : String)
    (ctx : UserContext) (pick : Nat) (enum : List String → List String) :
    ∃ l, (generateContextualResponse message ctx pick enum).2.interests =
      setThenLast enum l 10 := by
  unfold generateContextualResponse
  dsimp only
  split_ifs <;> exact ⟨_, rfl⟩

theorem updateTopics_message_count (enum : List String → List String)
    (message : String) (ctx : UserContext) :
    (updateTopics enum message ctx).message_count = ctx.message_count := rfl

theorem updateTopics_name (enum : List String → List String)
    (message : String) (ctx : UserContext) :
    (updateTopics enum message ctx).name = ctx.name := rfl

theorem computeResponse_message_count (t0 : Nat) (message : String)
    (ctx : UserContext) (pick : Nat) (coin : Bool) (cp : Nat)
    (enum : List String → List String) :
    (computeResponse t0 message ctx pick coin cp enum).2.message_count =
      ctx.message_count := by
  unfold computeResponse
  cases hm : matchPatterns (chatTable t0) (pyStrip (pyLower message)) ctx pick coin enum with
  | none => exact generateContextualResponse_message_count _ _ _ _
  | some rc =>
    obtain ⟨cat, grp, _, hrc⟩ := matchPatterns_some_ex _ _ _ _ _ _ _ hm
    simp only [hrc]
    exact applyCat_message_count _ _ _ _ _ _

theorem computeResponse_name (t0 : Nat) (message : String)
    (ctx : UserContext) (pick : Nat) (coin : Bool) (cp : Nat)
    (enum : List String → List String) :
    (computeResponse t0 message ctx pick coin cp enum).2.name = ctx.name ∨
      ∃ s, (computeResponse t0 message ctx pick coin cp enum).2.name = some s := by
  unfold computeResponse
  cases hm : matchPatterns (chatTable t0) (pyStrip (pyLower message)) ctx pick coin enum with
  | none => exact Or.inl (generateContextualResponse_name _ _ _ _)
  | some rc =>
    obtain ⟨cat, grp, -, hrc⟩ := matchPatterns_some_ex _ _ _ _ _ _ _ hm
    simp only [hrc, applyCat, personalize_snd]
    exact specialCase_name _ _ _ _ _

theorem userEntryCount_append (l₁ l₂ : List HistoryEntry) :
    userEntryCount (l₁ ++ l₂) = userEntryCount l₁ + userEntryCount l₂ := by
  unfold userEntryCount
  rw [List.filter_append, List.length_append]

/-! History-scan helper lemmas. -/

theorem historyStep_start (ctx : UserContext) (e : HistoryEntry) :
    (historyStep ctx e).conversation_start = ctx.conversation_start := by
  unfold historyStep; split <;> rfl

theorem historyStep_count (ctx : UserContext) (e : HistoryEntry) :
    (historyStep ctx e).message_count = ctx.message_count := by
  unfold historyStep; split <;> rfl

theorem foldl_historyStep_start_count (l : List HistoryEntry) (ctx : UserContext) :
    (l.foldl historyStep ctx).conversation_start = ctx.conversation_start ∧
      (l.foldl historyStep ctx).message_count = ctx.message_count := by
  induction l generalizing ctx with
  | nil => exact ⟨rfl, rfl⟩
  | cons e t ih =>
    rw [List.foldl_cons]
    refine ⟨(ih _).1.trans (historyStep_start _ _),
            (ih _).2.trans (historyStep_count _ _)⟩

theorem historyStep_mood (ctx : UserContext) (e : HistoryEntry) :
    (historyStep ctx e).mood =
      if e.sender == "user" then scanMood (pyLower e.message) ctx.mood
      else ctx.mood := by
  unfold historyStep; split <;> simp_all

theorem historyStep_name_eq (ctx : UserContext) (e : HistoryEntry) :
    (historyStep ctx e).name =
      if e.sender == "user" then scanName (pyLower e.message) ctx.name
      else ctx.name := by
  unfold historyStep; split <;> simp_all

theorem foldl_historyStep_mood_congr (l : List HistoryEntry)
    (ctx ctx' : UserContext) (h : ctx.mood = ctx'.mood) :
    (l.foldl historyStep ctx).mood = (l.foldl historyStep ctx').mood := by
  induction l generalizing ctx ctx' with
  | nil => exact h
  | cons e t ih =>
    rw [List.foldl_cons, List.foldl_cons]
    exact ih _ _ (by rw [historyStep_mood, historyStep_mood, h])

theorem foldl_historyStep_name_congr (l : List HistoryEntry)
    (ctx ctx' : UserContext) (h : ctx.name = ctx'.name) :
    (l.foldl historyStep ctx).name = (l.foldl historyStep ctx').name := by
  induction l generalizing ctx ctx' with
  | nil => exact h
  | cons e t ih =>
    rw [List.foldl_cons, List.foldl_cons]
    exact ih _ _ (by rw [historyStep_name_eq, historyStep_name_eq, h])

/-- The canonical mood of a replayed history: a fold from `"neutral"`. -/
theorem mkBot_mood (history : List HistoryEntry) (now : Nat) :
    (mkBot history now).ctx.mood =
      (history.foldl historyStep (initContext [] 0)).mood := by
  unfold mkBot updateContextFromHistory
  cases history with
  | nil => rfl
  | cons f t => exact foldl_historyStep_mood_congr _ _ _ rfl

theorem mkBot_name (history : List HistoryEntry) (now : Nat) :
    (mkBot history now).ctx.name =
      (history.foldl historyStep (initContext [] 0)).name := by
  unfold mkBot updateContextFromHistory
  cases history with
  | nil => rfl
  | cons f t => exact foldl_historyStep_name_congr _ _ _ rfl

/-! Lemmas about the concrete set-enumeration oracles. -/

theorem mem_dedupAux (l : List String) :
    ∀ (seen : List String) (b : String),
      b ∈ dedupAux l seen ↔ b ∈ l ∧ b ∉ seen := by
  induction l with
  | nil => intro seen b; simp [dedupAux]
  | cons a l ih =>
    intro seen b
    by_cases ha : a ∈ seen
    · rw [dedupAux, if_pos ha, ih]
      constructor
      · rintro ⟨hbl, hbs⟩; exact ⟨List.mem_cons_of_mem _ hbl, hbs⟩
      · rintro ⟨hbl, hbs⟩
        rcases List.mem_cons.mp hbl with rfl | hbl
        · exact absurd ha hbs
        · exact ⟨hbl, hbs⟩
    · rw [dedupAux, if_neg ha]
      constructor
      · intro hb
        rcases List.mem_cons.mp hb with rfl | hb
        · exact ⟨List.mem_cons_self _ _, ha⟩
        · obtain ⟨hbl, hbs⟩ := (ih _ _).mp hb
          refine ⟨List.mem_cons_of_mem _ hbl, fun hs => hbs (List.mem_cons_of_mem _ hs)⟩
      · rintro ⟨hbl, hbs⟩
        rcases List.mem_cons.mp hbl with rfl | hbl
        · exact List.mem_cons_self _ _
        · by_cases hba : b = a
          · subst hba; exact List.mem_cons_self _ _
          · exact List.mem_cons_of_mem _ ((ih _ _).mpr
              ⟨hbl, fun hs => by
                rcases List.mem_cons.mp hs with h | h
                exacts [hba h, hbs h]⟩)

theorem nodup_dedupAux (l : List String) :
    ∀ seen : List String, (dedupAux l seen).Nodup := by
  induction l with
  | nil => intro seen; simp [dedupAux]
  | cons a l ih =>
    intro seen
    by_cases ha : a ∈ seen
    · rw [dedupAux, if_pos ha]; exact ih _
    · rw [dedupAux, if_neg ha]
      refine List.nodup_cons.mpr ⟨fun hmem => ?_, ih _⟩
      exact ((mem_dedupAux _ _ _).mp hmem).2 (List.mem_cons_self _ _)

theorem revEnum_ok : SetEnumOK revEnum := by
  intro l
  refine ⟨List.nodup_reverse.mpr (nodup_dedupAux _ _), fun a => ?_⟩
  rw [revEnum, List.mem_reverse, dedupKeepFirst, mem_dedupAux]
  simp

theorem foldl_historyStep_nouser (l : List HistoryEntry) (ctx : UserContext)
    (h : ∀ e ∈ l, (e.sender == "user") = false) :
    (l.foldl historyStep ctx).mood = ctx.mood ∧
      (l.foldl historyStep ctx).name = ctx.name := by
  induction l generalizing ctx with
  | nil => exact ⟨rfl, rfl⟩
  | cons e t ih =>
    rw [List.foldl_cons]
    have he := h e (List.mem_cons_self _ _)
    have hm : (historyStep ctx e).mood = ctx.mood := by
      rw [historyStep_mood, he]; simp
    have hn : (historyStep ctx e).name = ctx.name := by
      rw [historyStep_name_eq, he]; simp
    obtain ⟨im, inm⟩ := ih (historyStep ctx e)
      (fun e' he' => h e' (List.mem_cons_of_mem _ he'))
    exact ⟨im.trans hm, inm.trans hn⟩

/-! ## Claim theorems -/

/-- C1: for every input string and every state, `_match_patterns` tries
categories in table order and patterns in listed order, using `re.search` on
the lower-cased input; the response comes from the first category with a
matching pattern, and nothing after that category can influence the result.
Part 1: if every category before `cat` in the table has no matching pattern
and `cat` has one (with group value `g`), the matcher's result is exactly
`applyCat cat g …` — independent of all later categories. Part 2: the result
the matcher computes on `strip(lower(message))` is the response
`process_message` returns. -/
theorem pattern_matcher_first_match :
    (∀ (t0 : Nat) (pre post : List Category) (cat : Category) (ml : String)
       (ctx : UserContext) (pick : Nat) (coin : Bool)
       (enum : List String → List String) (g : Option String),
      chatTable t0 = pre ++ cat :: post →
      (∀ c ∈ pre, findPatMatch c.patterns ml = none) →
      findPatMatch cat.patterns ml = some g →
      matchPatterns (chatTable t0) ml ctx pick coin enum =
        some (applyCat cat g ctx pick coin enum)) ∧
    (∀ (bot : Bot) (message : String) (now1 now2 pick : Nat) (coin : Bool)
       (cp : Nat) (enum : List String → List String) (rc : String × UserContext),
      matchPatterns (chatTable bot.ctorTime) (pyStrip (pyLower message))
        { bot.ctx with message_count := bot.ctx.message_count + 1 }
        pick coin enum = some rc →
      (processMessage bot message now1 now2 pick coin cp enum).2 = rc.1) := by
  constructor
  · intro t0 pre post cat ml ctx pick coin enum g htbl hpre hcat
    rw [htbl, matchPatterns_append_none _ _ _ _ _ _ _ hpre,
        matchPatterns_cons_hit _ _ _ _ _ _ _ _ hcat]
  · intro bot message now1 now2 pick coin cp enum rc hm
    simp only [processMessage, computeResponse, hm]

theorem pattern_matcher_first_match_witness :
    matchPatterns (chatTable 0) "i feel sad" (initContext [] 0) 0 false idEnum =
      some (applyCat feelingsNegativeCat (some "sad") (initContext [] 0) 0 false
        idEnum) :=
  pattern_matcher_first_match.1 0
    [greetingCat, nameInquiryCat, howAreYouCat, feelingsPositiveCat]
    [questionsGeneralCat, complimentsCat, goodbyeCat, weatherCat, timeCat 0,
     identityInquiryCat, capabilitiesInquiryCat, boredomCat, hobbiesInterestsCat,
     feedbackCat]
    feelingsNegativeCat "i feel sad" (initContext [] 0) 0 false idEnum
    (some "sad") rfl (by decide) (by decide)

/-- C2: when no pattern matches, `_generate_contextual_response` branches on
`message_count` as already incremented for the current turn: `> 6` selects
from the deep family, `> 3` and `≤ 6` from the medium family, `≤ 3` from the
fixed generic contextual set; in particular at exactly 7 it is the deep
family. Part 2 ties this to `process_message`: on a matcher miss the returned
response is the contextual one computed at `message_count + 1`. -/
theorem contextual_responder_thresholds :
    (∀ (message : String) (ctx : UserContext) (pick : Nat)
       (enum : List String → List String),
      (ctx.message_count > 6 →
        (generateContextualResponse message ctx pick enum).1 =
          pyChoice (deepResponses (extractKeywords message)) pick) ∧
      (3 < ctx.message_count → ctx.message_count ≤ 6 →
        (generateContextualResponse message ctx pick enum).1 =
          pyChoice (mediumResponses (extractKeywords message)) pick) ∧
      (ctx.message_count ≤ 3 →
        (generateContextualResponse message ctx pick enum).1 =
          pyChoice contextualResponses pick) ∧
      (ctx.message_count = 7 →
        (generateContextualResponse message ctx pick enum).1 =
          pyChoice (deepResponses (extractKeywords message)) pick)) ∧
    (∀ (bot : Bot) (message : String) (now1 now2 pick : Nat) (coin : Bool)
       (cp : Nat) (enum : List String → List String),
      matchPatterns (chatTable bot.ctorTime) (pyStrip (pyLower message))
        { bot.ctx with message_count := bot.ctx.message_count + 1 }
        pick coin enum = none →
      (processMessage bot message now1 now2 pick coin cp enum).2 =
        (generateContextualResponse message
          { bot.ctx with message_count := bot.ctx.message_count + 1 }
          cp enum).1) := by
  constructor
  · intro message ctx pick enum
    refine ⟨fun h => ?_, fun h1 h2 => ?_, fun h => ?_, fun h => ?_⟩ <;>
      (unfold generateContextualResponse; dsimp only)
    · rw [if_pos h]
    · rw [if_neg (by omega), if_pos h1]
    · rw [if_neg (by omega), if_neg (by omega)]
    · rw [if_pos (by omega)]
  · intro bot message now1 now2 pick coin cp enum hm
    simp only [processMessage, computeResponse, hm]

theorem contextual_responder_thresholds_witness :
    (generateContextualResponse "ok um" ctx7 0 idEnum).1 =
      pyChoice (deepResponses (extractKeywords "ok um")) 0 :=
  (contextual_responder_thresholds.1 "ok um" ctx7 0 idEnum).1 (by decide)

/-- C4: `_update_context_from_history` (lines 393-395) does set
`conversation_start` to the first loaded entry's timestamp and
`message_count` to the total number of loaded entries — but in the source
this function is called (line 120) before `self.response_patterns` is
assigned (line 123), so for any loaded history containing a user entry the
scan at line 402 raises `AttributeError` and construction fails; the
assignments survive only for histories with no user entry. -/
theorem rehydration_total_count_bug :
    (∀ (e : HistoryEntry) (rest : List HistoryEntry) (now : Nat),
      (mkBot (e :: rest) now).ctx.conversation_start = e.timestamp ∧
      (mkBot (e :: rest) now).ctx.message_count = (e :: rest).length) ∧
    mkBotE [⟨"user", "hi", 5⟩] 0 = Except.error attrErrMsg ∧
    mkBotE [⟨"bot", "x", 5⟩, ⟨"bot", "y", 7⟩] 0 =
      Except.ok (mkBot [⟨"bot", "x", 5⟩, ⟨"bot", "y", 7⟩] 0) ∧
    (mkBot [⟨"bot", "x", 5⟩, ⟨"bot", "y", 7⟩] 0).ctx.conversation_start = 5 ∧
    (mkBot [⟨"bot", "x", 5⟩, ⟨"bot", "y", 7⟩] 0).ctx.message_count = 2 := by
  refine ⟨fun e rest now => ?_, rfl, rfl, by decide, by decide⟩
  unfold mkBot updateContextFromHistory
  exact ⟨(foldl_historyStep_start_count _ _).1, (foldl_historyStep_start_count _ _).2⟩

/-- C8: `_extract_keywords` lower-cases the text, tokenizes on `\w+` runs,
drops stop words and tokens shorter than 3 characters, and returns the first
at most 5 survivors in original order; it is a pure function of the input
(no randomness). -/
theorem keyword_extractor_spec (message : String) :
    extractKeywords message =
      ((wordRuns (pyLower message).data).filter
        (fun w => !(decide (w ∈ commonWords)) && decide (2 < w.length))).take 5 ∧
    (extractKeywords message).length ≤ 5 ∧
    (∀ w ∈ extractKeywords message, w ∉ commonWords ∧ 3 ≤ w.length) ∧
    (extractKeywords message).Sublist (wordRuns (pyLower message).data) := by
  refine ⟨rfl, ?_, ?_, ?_⟩
  · exact List.length_take_le _ _
  · intro w hw
    unfold extractKeywords at hw
    have hw' := List.mem_of_mem_take hw
    obtain ⟨-, hp⟩ := List.mem_filter.mp hw'
    simp only [Bool.and_eq_true, Bool.not_eq_true', decide_eq_false_iff_not,
      decide_eq_true_eq] at hp
    exact ⟨hp.1, by omega⟩
  · exact (List.take_sublist _ _).trans (List.filter_sublist _)

theorem keyword_extractor_spec_witness :
    "cat" ∉ commonWords ∧ 3 ≤ "cat".length :=
  (keyword_extractor_spec "the cat sat").2.2.1 "cat" (by decide)

/-- C10: the two clock-referencing `time` responses are f-strings evaluated
when `__init__` builds the table, so a bot constructed at `t0` answers every
time inquiry from `timeResponses t0`: the returned response does not depend
on the inquiry-time stamps `now1`/`now2` at all, and the first and third
templates embed the construction-time clock reading `clockStr t0`. -/
theorem time_responses_construction_time (now1 now2 pick cp : Nat)
    (coin : Bool) (enum : List String → List String) (bot : Bot)
    (hname : bot.ctx.name = none) :
    (processMessage bot "what time is it" now1 now2 pick coin cp enum).2 =
      pyChoice (timeResponses bot.ctorTime) pick ∧
    (pick % 3 = 0 ∨ pick % 3 = 2 →
      ∃ pre suf : List Char,
        (pyChoice (timeResponses bot.ctorTime) pick).data =
          pre ++ (clockStr bot.ctorTime).data ++ suf) := by
  constructor
  · have hskip : ∀ c ∈ [greetingCat, nameInquiryCat, howAreYouCat,
        feelingsPositiveCat, feelingsNegativeCat, questionsGeneralCat,
        complimentsCat, goodbyeCat, weatherCat],
        findPatMatch c.patterns (pyStrip (pyLower "what time is it")) = none := by
      decide
    have hhit : findPatMatch (timeCat bot.ctorTime).patterns
        (pyStrip (pyLower "what time is it")) = some none := by
      show findPatMatch [Pat.alt "" ["what time"] false,
        Pat.alt "" ["current time"] false, Pat.alt "" ["time is it"] false]
        (pyStrip (pyLower "what time is it")) = some none
      decide
    have h1 : matchPatterns (chatTable bot.ctorTime)
        (pyStrip (pyLower "what time is it"))
        { bot.ctx with message_count := bot.ctx.message_count + 1 }
        pick coin enum =
        some (applyCat (timeCat bot.ctorTime) none
          { bot.ctx with message_count := bot.ctx.message_count + 1 }
          pick coin enum) := by
      rw [show chatTable bot.ctorTime =
        [greetingCat, nameInquiryCat, howAreYouCat, feelingsPositiveCat,
         feelingsNegativeCat, questionsGeneralCat, complimentsCat, goodbyeCat,
         weatherCat] ++ timeCat bot.ctorTime ::
        [identityInquiryCat, capabilitiesInquiryCat, boredomCat,
         hobbiesInterestsCat, feedbackCat] from rfl]
      rw [matchPatterns_append_none _ _ _ _ _ _ _ hskip]
      exact matchPatterns_cons_hit _ _ _ _ _ _ _ _ hhit
    simp only [processMessage, computeResponse, h1]
    simp [applyCat, specialCase, personalize, hname, timeCat]
  · rintro (h | h)
    · refine ⟨"According to my server, it's currently ".data,
        ". What time zone are you in?".data, ?_⟩
      unfold pyChoice
      rw [show (timeResponses bot.ctorTime).length = 3 from rfl, h]
      rfl
    · refine ⟨"My clock shows ".data,
        " - but time zones can be tricky! How's your day going?".data, ?_⟩
      unfold pyChoice
      rw [show (timeResponses bot.ctorTime).length = 3 from rfl, h]
      rfl

theorem time_responses_construction_time_witness :
    (processMessage (mkBot [] 5) "what time is it" 9 10 0 false 0 idEnum).2 =
      pyChoice (timeResponses (mkBot [] 5).ctorTime) 0 :=
  (time_responses_construction_time 9 10 0 0 false idEnum (mkBot [] 5) rfl).1

/-- C3 counterexample: a session rehydrated from the single-entry history
`[{sender: 'bot', message: 'y', timestamp: 1}]` (which avoids the
`AttributeError` of line 402, since no user entry is scanned) gets
`message_count = 1` while the history has 0 `sender == 'user'` entries, so
the invariant `message_count = #user entries` fails at that observation
point. -/
theorem message_count_invariant_cx :
    mkBotE [⟨"bot", "y", 1⟩] 0 = Except.ok (mkBot [⟨"bot", "y", 1⟩] 0) ∧
    (mkBot [⟨"bot", "y", 1⟩] 0).ctx.message_count = 1 ∧
    userEntryCount (mkBot [⟨"bot", "y", 1⟩] 0).history = 0 ∧
    (1 : Nat) ≠ 0 :=
  ⟨rfl, by decide, by decide, by decide⟩

/-- C3 amended: `message_count` equals the number of `sender == 'user'`
history entries for sessions created fresh (empty loaded history), and
`process_message` preserves the equality — each turn increments the counter
once and appends exactly one user entry (plus one bot entry). The equality
does not survive rehydration: `_update_context_from_history` sets
`message_count` to the *total* entry count (and any loaded user entry makes
construction raise, see C4). -/
theorem message_count_invariant_amended :
    (∀ now : Nat, mkBotE [] now = Except.ok (mkBot [] now) ∧
      (mkBot [] now).ctx.message_count = userEntryCount (mkBot [] now).history) ∧
    (∀ (bot : Bot) (message : String) (now1 now2 pick : Nat) (coin : Bool)
       (cp : Nat) (enum : List String → List String),
      bot.ctx.message_count = userEntryCount bot.history →
      (processMessage bot message now1 now2 pick coin cp enum).1.ctx.message_count =
        userEntryCount
          (processMessage bot message now1 now2 pick coin cp enum).1.history) := by
  constructor
  · intro now; exact ⟨rfl, rfl⟩
  · intro bot message now1 now2 pick coin cp enum h
    simp only [processMessage]
    rw [updateTopics_message_count, computeResponse_message_count,
        userEntryCount_append, userEntryCount_append]
    have hu : userEntryCount [(⟨"user", message, now1⟩ : HistoryEntry)] = 1 := rfl
    have hb : ∀ r : String,
        userEntryCount [(⟨"bot", r, now2⟩ : HistoryEntry)] = 0 := fun _ => rfl
    rw [hu, hb]
    show bot.ctx.message_count + 1 = userEntryCount bot.history + 1 + 0
    omega

theorem message_count_invariant_amended_witness :
    (processMessage (mkBot [] 0) "hi" 1 2 0 false 0 idEnum).1.ctx.message_count =
      userEntryCount (processMessage (mkBot [] 0) "hi" 1 2 0 false 0
        idEnum).1.history :=
  message_count_invariant_amended.2 (mkBot [] 0) "hi" 1 2 0 false 0 idEnum rfl

/-- C5 counterexample: (i) rehydrating the history
`[{user, "i feel sad", 1}]` does not populate mood at all — `__init__`
raises `AttributeError` (line 402 runs before `response_patterns` exists);
(ii) even the scan logic itself (modelled with the patterns available) does
not keep the earliest mood: replaying `[user "i feel sad", bot "r",
user "i feel happy"]` ends with mood `"happy"`, although the earliest user
entry matching a feelings pattern captured `"sad"`. -/
theorem rehydration_mood_cx :
    mkBotE [⟨"user", "i feel sad", 1⟩] 0 = Except.error attrErrMsg ∧
    (mkBot [⟨"user", "i feel sad", 1⟩, ⟨"bot", "r", 2⟩,
            ⟨"user", "i feel happy", 3⟩] 0).ctx.mood = "happy" ∧
    findCap feelingsNegativeCat.patterns (pyLower "i feel sad") = some "sad" ∧
    ("happy" : String) ≠ "sad" :=
  ⟨rfl, by decide, by decide, by decide⟩

/-- C5 amended: rehydration raises `AttributeError` for every history that
contains a user entry, and scans nothing (mood stays `"neutral"`, name stays
`none`) for histories without one. The scan logic itself (lines 397-414,
modelled with the patterns available) visits only `sender == 'user'` entries
in order, but does *not* stop at the first mood: each later user entry whose
positive-feelings pattern captures overwrites the mood, while the
negative-feelings patterns are consulted only while the mood is still
`"neutral"`; bot entries never change name or mood. -/
theorem rehydration_mood_amended :
    (∀ (h : List HistoryEntry) (now : Nat),
      h.any (fun e => e.sender == "user") = true →
      mkBotE h now = Except.error attrErrMsg) ∧
    (∀ (h : List HistoryEntry) (now : Nat),
      h.any (fun e => e.sender == "user") = false →
      mkBotE h now = Except.ok (mkBot h now) ∧
      (mkBot h now).ctx.mood = "neutral" ∧ (mkBot h now).ctx.name = none) ∧
    (∀ (h : List HistoryEntry) (msg : String) (ts now : Nat) (e : String),
      findCap feelingsPositiveCat.patterns (pyLower msg) = some e →
      (mkBot (h ++ [⟨"user", msg, ts⟩]) now).ctx.mood = e) ∧
    (∀ (h : List HistoryEntry) (msg : String) (ts now : Nat),
      findCap feelingsPositiveCat.patterns (pyLower msg) = none →
      (mkBot (h ++ [⟨"user", msg, ts⟩]) now).ctx.mood =
        (if (mkBot h now).ctx.mood != "neutral" then (mkBot h now).ctx.mood
         else (findCap feelingsNegativeCat.patterns (pyLower msg)).getD
           (mkBot h now).ctx.mood)) ∧
    (∀ (h : List HistoryEntry) (msg : String) (ts now : Nat),
      (mkBot (h ++ [⟨"bot", msg, ts⟩]) now).ctx.mood = (mkBot h now).ctx.mood ∧
      (mkBot (h ++ [⟨"bot", msg, ts⟩]) now).ctx.name = (mkBot h now).ctx.name) := by
  refine ⟨?_, ?_, ?_, ?_, ?_⟩
  · intro h now hh
    simp [mkBotE, hh]
  · intro h now hh
    have hall : ∀ e ∈ h, (e.sender == "user") = false := by
      intro e he
      by_contra hc
      have : h.any (fun e => e.sender == "user") = true :=
        List.any_eq_true.mpr ⟨e, he, by revert hc; cases e.sender == "user" <;> simp⟩
      rw [hh] at this; exact absurd this (by simp)
    refine ⟨by simp [mkBotE, hh], ?_, ?_⟩
    · rw [mkBot_mood]
      exact (foldl_historyStep_nouser h _ hall).1
    · rw [mkBot_name]
      exact (foldl_historyStep_nouser h _ hall).2
  · intro h msg ts now e hpos
    rw [mkBot_mood, List.foldl_append, List.foldl_cons, List.foldl_nil,
        historyStep_mood]
    simp only [beq_self_eq_true, if_true]
    unfold scanMood
    rw [hpos]
  · intro h msg ts now hpos
    rw [mkBot_mood, List.foldl_append, List.foldl_cons, List.foldl_nil,
        historyStep_mood]
    simp only [beq_self_eq_true, if_true]
    unfold scanMood
    rw [hpos, ← mkBot_mood h now]
    cases hneg : findCap feelingsNegativeCat.patterns (pyLower msg) <;> simp [hneg]
  · intro h msg ts now
    constructor
    · rw [mkBot_mood, mkBot_mood, List.foldl_append, List.foldl_cons,
          List.foldl_nil, historyStep_mood]
      simp [show (("bot" : String) == "user") = false from by decide]
    · rw [mkBot_name, mkBot_name, List.foldl_append, List.foldl_cons,
          List.foldl_nil, historyStep_name_eq]
      simp [show (("bot" : String) == "user") = false from by decide]

theorem rehydration_mood_amended_witness :
    (mkBot ([] ++ [⟨"user", "I feel happy", 3⟩]) 0).ctx.mood = "happy" :=
  rehydration_mood_amended.2.2.1 [] "I feel happy" 3 0 "happy" (by decide)

/-- C6 counterexample: `list(set(...))` makes no promise about order.
`revEnum` is a legal set enumeration (duplicate-free, same members — witness
`SetEnumOK revEnum`), yet under it `_update_topics` turns the topics
`["aaa", "bbb"]` plus keyword `"ccc"` into `["ccc", "bbb", "aaa"]`, which is
not the claimed insertion order `["aaa", "bbb", "ccc"]`; hence dedup does not
preserve insertion order and eviction is not oldest-first. -/
theorem capacity_order_cx :
    SetEnumOK revEnum ∧
    (updateTopics revEnum "ccc" topicsCtx).topics_discussed =
      ["ccc", "bbb", "aaa"] ∧
    (["ccc", "bbb", "aaa"] : List String) ≠ ["aaa", "bbb", "ccc"] :=
  ⟨revEnum_ok, by decide, by decide⟩

/-- C6 amended: after every operation that adds to them — topic update after
each turn, keyword merge in the contextual responder, interest capture in the
pattern matcher — `topics_discussed` has at most 20 entries and `interests`
at most 10, and both are duplicate-free; but the surviving order (and hence
which entries are evicted) is whatever order `list(set(...))` produced, not
insertion order. -/
theorem capacity_amended (enum : List String → List String)
    (henum : SetEnumOK enum) :
    (∀ (message : String) (ctx : UserContext),
      (updateTopics enum message ctx).topics_discussed.length ≤ 20 ∧
      (updateTopics enum message ctx).topics_discussed.Nodup) ∧
    (∀ (message : String) (ctx : UserContext) (pick : Nat),
      (generateContextualResponse message ctx pick enum).2.interests.length ≤ 10 ∧
      (generateContextualResponse message ctx pick enum).2.interests.Nodup) ∧
    (∀ (tbl : List Category) (ml : String) (ctx : UserContext) (pick : Nat)
       (coin : Bool) (rc : String × UserContext),
      matchPatterns tbl ml ctx pick coin enum = some rc →
      rc.2.interests = ctx.interests ∨
        (rc.2.interests.length ≤ 10 ∧ rc.2.interests.Nodup)) := by
  refine ⟨?_, ?_, ?_⟩
  · intro message ctx
    exact ⟨setThenLast_length _ _ _, setThenLast_nodup _ henum _ _⟩
  · intro message ctx pick
    obtain ⟨l, hl⟩ := generateContextualResponse_interests message ctx pick enum
    rw [hl]
    exact ⟨setThenLast_length _ _ _, setThenLast_nodup _ henum _ _⟩
  · intro tbl ml ctx pick coin rc hm
    obtain ⟨cat, grp, -, hrc⟩ := matchPatterns_some_ex _ _ _ _ _ _ _ hm
    rw [hrc, applyCat, personalize_snd]
    rcases specialCase_interests cat grp ctx enum (pyChoice cat.responses pick) with
      h | ⟨g, hg⟩
    · exact Or.inl h
    · rw [hg]
      exact Or.inr ⟨setThenLast_length _ _ _, setThenLast_nodup _ henum _ _⟩

theorem capacity_amended_witness :
    (updateTopics revEnum "hello" (initContext [] 0)).topics_discussed.length ≤ 20 ∧
    (updateTopics revEnum "hello" (initContext [] 0)).topics_discussed.Nodup :=
  (capacity_amended revEnum revEnum_ok).1 "hello" (initContext [] 0)

/-- C7 counterexample: processing "my name is alice" sets
`state.name = "Alice"`, but a later "my name is bob" *overwrites* it with
`"Bob"` — `_match_patterns` assigns `state.name` unconditionally on every
name-introduction match, so the name is not frozen at the first match. -/
theorem name_first_match_cx :
    (processMessage (mkBot [] 0) "my name is alice" 1 2 0 false 0
      idEnum).1.ctx.name = some "Alice" ∧
    (processMessage (processMessage (mkBot [] 0) "my name is alice" 1 2 0 false 0
        idEnum).1 "my name is bob" 3 4 0 false 0 idEnum).1.ctx.name =
      some "Bob" ∧
    (some "Bob" : Option String) ≠ some "Alice" := by
  refine ⟨by decide, by decide, by decide⟩

/-- C7 amended: `state.name` is set to the title-cased capture *each* time a
name-introduction pattern is the first match with a captured group — the most
recent capture wins, overwriting any earlier value — and processing a message
never clears a set name back to `None`. -/
theorem name_overwrite_amended :
    (∀ (t0 : Nat) (pre post : List Category) (cat : Category) (ml : String)
       (ctx : UserContext) (pick : Nat) (coin : Bool)
       (enum : List String → List String) (g : String),
      chatTable t0 = pre ++ cat :: post →
      (∀ c ∈ pre, findPatMatch c.patterns ml = none) →
      findPatMatch cat.patterns ml = some (some g) →
      cat.name = "name_inquiry" →
      (matchPatterns (chatTable t0) ml ctx pick coin enum).map
        (fun rc => rc.2.name) = some (some (pyTitle g))) ∧
    (∀ (bot : Bot) (message : String) (now1 now2 pick : Nat) (coin : Bool)
       (cp : Nat) (enum : List String → List String),
      (processMessage bot message now1 now2 pick coin cp enum).1.ctx.name =
        bot.ctx.name ∨
      ∃ s, (processMessage bot message now1 now2 pick coin cp enum).1.ctx.name =
        some s) := by
  constructor
  · intro t0 pre post cat ml ctx pick coin enum g htbl hpre hcat hcn
    rw [htbl, matchPatterns_append_none _ _ _ _ _ _ _ hpre,
        matchPatterns_cons_hit _ _ _ _ _ _ _ _ hcat]
    rw [Option.map_some']
    rw [applyCat, personalize_snd]
    unfold specialCase
    rw [hcn]
    simp
  · intro bot message now1 now2 pick coin cp enum
    simp only [processMessage]
    rw [updateTopics_name]
    exact computeResponse_name _ _ _ _ _ _ _

theorem name_overwrite_amended_witness :
    (matchPatterns (chatTable 0) "call me zoe" (initContext [] 0) 0 false
      idEnum).map (fun rc => rc.2.name) = some (some (pyTitle "zoe")) :=
  name_overwrite_amended.1 0 [greetingCat]
    [howAreYouCat, feelingsPositiveCat, feelingsNegativeCat,
     questionsGeneralCat, complimentsCat, goodbyeCat, weatherCat, timeCat 0,
     identityInquiryCat, capabilitiesInquiryCat, boredomCat,
     hobbiesInterestsCat, feedbackCat]
    nameInquiryCat "call me zoe" (initContext [] 0) 0 false idEnum "zoe"
    rfl (by decide) (by decide) rfl

/-- C9 counterexample: with the user-message append committing fine but the
bot-message append raising, `process_message` propagates the exception and
the `/chat` endpoint's `try/except` turns the turn into a generic 500 —
losing the response (which the pure computation would have produced). The
only storage failure the code survives is the missing-conversation-row path
of `_save_message`, which logs and returns. -/
theorem persistence_failure_cx :
    chatEndpointCore (mkBot [] 0) "hello" 1 2 0 false 0 idEnum
      SaveOutcome.ok SaveOutcome.commitError = ChatResult.internalError ∧
    (processMessage (mkBot [] 0) "hello" 1 2 0 false 0 idEnum).2 =
      "Hello! I'm excited to chat with you today. What's on your mind?" :=
  ⟨rfl, by decide⟩

/-- C9 amended: when neither append raises — in particular when an append
"fails" only by finding no conversation row, which `_save_message` logs and
swallows — the endpoint returns exactly the computed response; but a raising
database commit in either append aborts the turn with an internal error
instead of returning the response. -/
theorem persistence_failure_amended (bot : Bot) (message : String)
    (now1 now2 pick : Nat) (coin : Bool) (cp : Nat)
    (enum : List String → List String) (su sb : SaveOutcome)
    (hsu : su ≠ SaveOutcome.commitError) (hsb : sb ≠ SaveOutcome.commitError) :
    chatEndpointCore bot message now1 now2 pick coin cp enum su sb =
      ChatResult.success
        ((processMessage bot message now1 now2 pick coin cp enum).2) := by
  cases su <;> cases sb <;>
    first
      | rfl
      | exact absurd rfl hsu
      | exact absurd rfl hsb

theorem persistence_failure_amended_witness :
    chatEndpointCore (mkBot [] 0) "hey" 1 2 0 false 0 idEnum
      SaveOutcome.ok SaveOutcome.missingConversation =
      ChatResult.success
        ((processMessage (mkBot [] 0) "hey" 1 2 0 false 0 idEnum).2) :=
  persistence_failure_amended (mkBot [] 0) "hey" 1 2 0 false 0 idEnum
    SaveOutcome.ok SaveOutcome.missingConversation (by decide) (by decide)

end Chatbot
